import Mathlib

/-!
Shallow embedding of the communication-agent service (tone detector,
email-response orchestrator, service facade) and proofs about it.
Strings from the Python source are modelled as `List Char`; Python floats
are modelled as `ℚ` (all score arithmetic in the source stays on exactly
representable values where the two agree on every comparison performed).
-/

namespace CommAgent

/-- ASCII approximation of Python `str.strip()` whitespace. -/
def isPyWhitespace (c : Char) : Bool :=
  c = ' ' || c = '\t' || c = '\n' || c = '\r' || c = '\x0b' || c = '\x0c'

/-- Python `str.strip()`: drop leading and trailing whitespace. -/
def pyStrip (s : List Char) : List Char :=
  ((s.dropWhile isPyWhitespace).reverse.dropWhile isPyWhitespace).reverse

/-- Python `str.lower()` (ASCII). -/
def pyLower (s : List Char) : List Char := s.map Char.toLower

/-- Python `str.title()` (ASCII): uppercase a letter that follows a
non-letter, lowercase a letter that follows a letter. -/
def pyTitleAux : Bool → List Char → List Char
  | _, [] => []
  | prevAlpha, c :: rest =>
    (if c.isAlpha then (if prevAlpha then c.toLower else c.toUpper) else c)
      :: pyTitleAux c.isAlpha rest

def pyTitle (s : List Char) : List Char := pyTitleAux false s

/-- Python `key.replace('_', ' ')`. -/
def underscoreToSpace (s : List Char) : List Char :=
  s.map (fun c => if c = '_' then ' ' else c)

/-- Python `text.split(sep)` for a non-empty separator: split on
non-overlapping occurrences, scanning left to right.  `acc` holds the
(reversed) characters of the current piece. -/
def pySplit (sep : List Char) (text : List Char) (acc : List Char) :
    List (List Char) :=
  match text with
  | [] => [acc.reverse]
  | c :: rest =>
    if sep.isPrefixOf (c :: rest) ∧ sep ≠ [] then
      acc.reverse :: pySplit sep (rest.drop (sep.length - 1)) []
    else
      pySplit sep rest (c :: acc)
termination_by text.length
decreasing_by
  · simp only [List.length_cons, List.length_drop]; omega
  · simp only [List.length_cons]; omega

/-- Python `lst[-1]` on the (always non-empty) result of `split`. -/
def pyLastPart (parts : List (List Char)) : List Char := parts.getLastD []

/-- Substring test: does `needle` occur contiguously in the second list?
(Models an unanchored regex search for a literal.) -/
def containsSub (needle : List Char) : List Char → Bool
  | [] => needle.isEmpty
  | c :: rest => needle.isPrefixOf (c :: rest) || containsSub needle rest

/-- Python `str.lower()` on a `String` (ASCII). -/
def strLower (s : String) : String := String.mk (s.toList.map Char.toLower)

/-- A Python value stored in a context dict. -/
inductive PyVal where
  | noneV : PyVal
  | str : String → PyVal
  | int : Int → PyVal
deriving DecidableEq, Repr

/-- A Python dict with string keys, in insertion order. -/
abbrev PyDict := List (String × PyVal)

/-- `d.get(k)` defaulting to `None`. -/
def dictGet (d : PyDict) (k : String) : PyVal := (d.lookup k).getD .noneV

/-- Python truthiness of the values we model. -/
def PyVal.truthy : PyVal → Bool
  | .noneV => false
  | .str s => !s.isEmpty
  | .int n => n ≠ 0

def PyVal.isStrVal : PyVal → Bool
  | .str _ => true
  | _ => false

/-- Python `str(value)` as used in f-string interpolation. -/
def PyVal.render : PyVal → List Char
  | .noneV => "None".toList
  | .str s => s.toList
  | .int n => (toString n).toList

/-! ## Tone detector (src/app/services/tone_detector.py) -/

/-- Regex `\b(?:URGENT|ASAP|EMERGENCY|CRITICAL|IMMEDIATE)\b`:
word-boundary, case-sensitive alternation.  `\w` is modelled as
ASCII letters, digits and underscore. -/
def isWordChar (c : Char) : Bool := c.isAlpha || c.isDigit || c = '_'

/-- One candidate match position: `w` occurs here with a word boundary on
both sides (all our words consist solely of word characters, so the
boundary just requires the neighbours to be non-word characters). -/
def matchWordFrom (prevIsWord : Bool) (w : List Char) : List Char → Bool
  | [] => false
  | c :: rest =>
    (!prevIsWord && w.isPrefixOf (c :: rest) &&
      (match (c :: rest).drop w.length with
       | [] => true
       | d :: _ => !isWordChar d))
    || matchWordFrom (isWordChar c) w rest

def wordBoundaryMatch (msg w : List Char) : Bool := matchWordFrom false w msg

def urgencyUpperWords : List (List Char) :=
  ["URGENT".toList, "ASAP".toList, "EMERGENCY".toList, "CRITICAL".toList,
   "IMMEDIATE".toList]

/-- Case-insensitive alternation `(?i)a|b|...`: some alternative occurs as
a substring of the lowercased message. -/
def ciAny (kws : List String) (msg : List Char) : Bool :=
  kws.any (fun kw => containsSub kw.toList (pyLower msg))

def urgencyKeywords : List String :=
  ["urgent", "emergency", "asap", "right away", "immediately", "right now"]

/-- The three urgency patterns of `ToneDetector.__init__`. -/
def urgency_patterns : List (List Char → Bool) :=
  [fun msg => urgencyUpperWords.any (wordBoundaryMatch msg),
   ciAny urgencyKeywords,
   fun msg => containsSub ['!', '!'] msg]

/-- The four complaint patterns. -/
def complaint_patterns : List (List Char → Bool) :=
  [ciAny ["disappointed", "frustrated", "angry", "upset", "terrible", "worst"],
   ciAny ["not acceptable", "unacceptable", "poor", "bad experience"],
   ciAny ["third time", "again", "still not", "yet to", "never"],
   ciAny ["complaint", "issue", "problem", "error", "bug", "failed", "failure"]]

/-- The three formal patterns. -/
def formal_patterns : List (List Char → Bool) :=
  [ciAny ["dear", "sincerely", "regards", "pursuant", "accordingly"],
   ciAny ["request", "inquire", "regarding", "concerning", "matter"],
   ciAny ["documentation", "legal", "compliance", "policy", "regulation"]]

/-- The four positive patterns (the last one matches positive emojis). -/
def positive_patterns : List (List Char → Bool) :=
  [ciAny ["thank", "appreciate", "great", "good", "excellent", "wonderful"],
   ciAny ["love", "enjoy", "pleased", "happy", "satisfied", "helpful"],
   ciAny ["feature request", "suggestion", "idea", "feedback"],
   fun msg => msg.any (fun c => c = '😊' || c = '👍' || c = '🙏')]

/-- `ToneDetector._check_patterns`: fraction of patterns that match,
capped at 1.0. -/
def check_patterns (text : List Char) (patterns : List (List Char → Bool)) : ℚ :=
  min ((patterns.countP (fun p => p text) : ℚ) / (patterns.length : ℚ)) 1

/-- `ToneDetector._analyze_message`: the four axis scores, in the dict
order of the source. -/
def analyze_message (message : List Char) : List (String × ℚ) :=
  [("urgency", check_patterns message urgency_patterns),
   ("complaint", check_patterns message complaint_patterns),
   ("formality", check_patterns message formal_patterns),
   ("positivity", check_patterns message positive_patterns)]

/-- `scores["key"]` (every key used is present). -/
def getScore (scores : List (String × ℚ)) (k : String) : ℚ :=
  ((scores.lookup k).getD 0)

/-- Result record of `detect_tone` (`ToneDetectionMetadata` shape). -/
structure ToneDetectionMetadata where
  detected_tone : String
  confidence : ℚ
  factors : List (String × ℚ)
deriving DecidableEq, Repr

/-- The `priority` local of `detect_tone` (lines 71-73): `"normal"` unless
the context dict is truthy and carries a truthy `"priority"` value, in which
case that value lowercased.  A truthy non-string priority raises
`AttributeError` in Python; such contexts are excluded by `priorityWF`
below, and this function returns `""` there. -/
def contextPriority (context : Option PyDict) : String :=
  match context with
  | Option.none => "normal"
  | some d =>
    if d ≠ [] ∧ (dictGet d "priority").truthy then
      match dictGet d "priority" with
      | .str s => strLower s
      | _ => ""
    else "normal"

/-- Contexts on which the Python code does not crash while reading
`priority`: a truthy priority value must be a string. -/
def priorityWF (context : Option PyDict) : Bool :=
  match context with
  | Option.none => true
  | some d => !(dictGet d "priority").truthy || (dictGet d "priority").isStrVal

/-- Confidence of the final (professional) branch: mean of the strictly
positive scores, 0.5 if there are none. -/
def professionalConfidence (scores : List (String × ℚ)) : ℚ :=
  let non_zero_scores := (scores.map Prod.snd).filter (fun s => 0 < s)
  if non_zero_scores ≠ [] then
    non_zero_scores.sum / (non_zero_scores.length : ℚ)
  else 1/2

/-- `ToneDetector.detect_tone`. -/
def detect_tone (message : List Char) (context : Option PyDict) :
    String × ToneDetectionMetadata :=
  let scores := analyze_message message
  let priority := contextPriority context
  let tc : String × ℚ :=
    if 3/10 < getScore scores "urgency" ∨ priority = "critical" then
      ("direct", getScore scores "urgency")
    else if 3/10 < getScore scores "complaint" then
      ("empathetic", getScore scores "complaint")
    else if 3/10 < getScore scores "formality" then
      ("formal", getScore scores "formality")
    else if 3/10 < getScore scores "positivity" then
      ("friendly", getScore scores "positivity")
    else
      ("professional", professionalConfidence scores)
  (tc.1, { detected_tone := tc.1, confidence := tc.2, factors := scores })

/-! ## Schemas (src/app/models/schemas.py) -/

/-- `ToneType` enumeration. -/
inductive ToneType where
  | PROFESSIONAL | FRIENDLY | FORMAL | EMPATHETIC | DIRECT
deriving DecidableEq, Repr

/-- `ToneType.value`. -/
def ToneType.value : ToneType → String
  | .PROFESSIONAL => "professional"
  | .FRIENDLY => "friendly"
  | .FORMAL => "formal"
  | .EMPATHETIC => "empathetic"
  | .DIRECT => "direct"

/-- The enum constructor `ToneType(tone)`: `some` member on a recognized
value, `none` where Python raises `ValueError`. -/
def toneTypeOfValue (s : String) : Option ToneType :=
  if s = "professional" then some .PROFESSIONAL
  else if s = "friendly" then some .FRIENDLY
  else if s = "formal" then some .FORMAL
  else if s = "empathetic" then some .EMPATHETIC
  else if s = "direct" then some .DIRECT
  else Option.none

/-- `EmailContext` (all fields optional). -/
structure EmailContext where
  customer_name : Option String
  customer_history : Option String
  account_type : Option String
  previous_interactions : Option Int
  priority : Option String
  department : Option String
  additional_notes : Option String
deriving DecidableEq, Repr

def optStrVal : Option String → PyVal
  | Option.none => .noneV
  | some s => .str s

def optIntVal : Option Int → PyVal
  | Option.none => .noneV
  | some n => .int n

/-- pydantic `context.dict()`: every field, `None` values included,
declaration order. -/
def EmailContext.dict (c : EmailContext) : PyDict :=
  [("customer_name", optStrVal c.customer_name),
   ("customer_history", optStrVal c.customer_history),
   ("account_type", optStrVal c.account_type),
   ("previous_interactions", optIntVal c.previous_interactions),
   ("priority", optStrVal c.priority),
   ("department", optStrVal c.department),
   ("additional_notes", optStrVal c.additional_notes)]

/-- pydantic `context.dict(exclude_none=True)`. -/
def EmailContext.dictExcludeNone (c : EmailContext) : PyDict :=
  c.dict.filter (fun kv => kv.2 ≠ PyVal.noneV)

/-- `EmailRequest`. -/
structure EmailRequest where
  customer_message : List Char
  context : Option EmailContext
  tone : Option ToneType
  max_length : Option Int
deriving DecidableEq, Repr

/-- `EmailResponseMetadata` (the timestamp field is not modelled). -/
structure EmailResponseMetadata where
  tone_used : String
  context_length : ℕ
  generation_settings : List (String × ℚ)
  tone_detection : Option ToneDetectionMetadata
deriving DecidableEq, Repr

/-- `EmailResponse`. -/
structure EmailResponse where
  message : List Char
  status_code : ℕ
  execution_time_ms : ℚ
  metadata : EmailResponseMetadata
deriving DecidableEq, Repr

/-! ## Settings (src/app/core/config.py) -/

structure Settings where
  TEMPERATURE : ℚ
  MAX_TOKENS : ℚ
  TOP_P : ℚ
  TOP_K : ℚ
deriving DecidableEq, Repr

/-- The defaults of `config.Settings`. -/
def defaultSettings : Settings :=
  { TEMPERATURE := 3/10, MAX_TOKENS := 4096, TOP_P := 9/10, TOP_K := 40 }

/-! ## LangChain service (src/app/services/langchain_service.py) -/

/-- `TONE_GUIDELINES`. -/
def TONE_GUIDELINES : ToneType → String
  | .PROFESSIONAL =>
    "Use a professional and polished tone. Be clear, concise, and business-appropriate."
  | .FRIENDLY =>
    "Use a warm and approachable tone. Be personable while maintaining professionalism."
  | .FORMAL =>
    "Use a formal and traditional tone. Be respectful and maintain appropriate distance."
  | .EMPATHETIC =>
    "Use an understanding and supportive tone. Show compassion and acknowledge feelings."
  | .DIRECT =>
    "Use a clear and straightforward tone. Be concise and get to the point quickly."

/-- `LangChainService._format_context`.  A pydantic model instance is
always truthy, so only an absent context takes the `not context` branch. -/
def format_context (context : Option EmailContext) : List Char :=
  match context with
  | Option.none => "No additional context provided.".toList
  | some c =>
    "Customer Information:\n".toList ++
      (c.dictExcludeNone.foldl
        (fun acc kv =>
          acc ++ "- ".toList ++ pyTitle (underscoreToSpace kv.1.toList) ++
            ": ".toList ++ kv.2.render ++ "\n".toList)
        [])

/-- `self.email_template` up to and including `CONTEXT INFORMATION:\n`
(the `{context}` placeholder follows). -/
def email_template_seg1 : String :=
  "System: You are a customer support agent responding to customer inquiries. You must follow these rules strictly:\n1. Respond AS A SUPPORT AGENT addressing the customer\x27s concerns\n2. Output ONLY the email response\n3. Do not include any explanations or thinking process\n4. Do not use XML-like tags\n5. Start with \"Dear [Customer\x27s Name],\"\n6. End with an appropriate signature\n7. Stay within character limits\n8. Maintain the specified tone\n\nSUPPORT AGENT GUIDELINES:\n- Immediately acknowledge the urgency/priority of the issue\n- Provide SPECIFIC, ACTIONABLE steps the customer can take\n- If it\x27s a known issue, provide the current status and ETA\n- Include CONCRETE next steps (e.g., specific phone numbers, links, or procedures)\n- For urgent issues, provide immediate workarounds if available\n- Include your direct contact information and availability\n- Specify when the customer can expect updates or resolution\n- Sign off with your department name and case reference number\n\nRESPONSE STRUCTURE:\n1. Acknowledgment of the specific issue\n2. Immediate action items or workarounds\n3. Next steps and timeline\n4. Your contact information and availability\n5. Case reference or ticket number\n\nCONTEXT INFORMATION:\n"

/-- Between `{context}` and `{tone_guidelines}`. -/
def email_template_seg2 : String := "\n\nTONE GUIDELINES:\n"

/-- Between `{tone_guidelines}` and `{customer_message}`. -/
def email_template_seg3 : String := "\n\nCUSTOMER MESSAGE:\n"

/-- Between `{customer_message}` and `{max_length}`. -/
def email_template_seg4 : String :=
  "\n\nREQUIREMENTS:\n1. Provide SPECIFIC, ACTIONABLE solutions\n2. Maintain the specified tone\n3. Be clear and well-structured\n4. Stay within "

/-- After `{max_length}`. -/
def email_template_seg5 : String :=
  " characters\n5. Include concrete next steps\n6. Reference relevant documentation\n7. Provide timeline expectations\n8. Include case/ticket reference\n\nGenerate the support agent\x27s email response below:"

/-- `self.email_template.format(...)` (line 172): substitute the four
placeholders. -/
def assemble_prompt (context_str : List Char) (tone_guidelines : String)
    (customer_message : List Char) (max_length : Int) : List Char :=
  email_template_seg1.toList ++ context_str ++
    email_template_seg2.toList ++ tone_guidelines.toList ++
    email_template_seg3.toList ++ customer_message ++
    email_template_seg4.toList ++ (toString max_length).toList ++
    email_template_seg5.toList

/-- `request.max_length or 2048` (Python `or`: `None` and `0` both fall
through to the default). -/
def effectiveMaxLength (ml : Option Int) : Int :=
  match ml with
  | Option.none => 2048
  | some n => if n ≠ 0 then n else 2048

def thinkOpen : List Char := "<think>".toList
def thinkClose : List Char := "</think>".toList

/-- Lines 182-186: strip the generated text; if it contains `<think>`,
keep only the part after the last `</think>`, stripped again. -/
def postprocess (text : List Char) : List Char :=
  let message := pyStrip text
  if containsSub thinkOpen message then
    pyStrip (pyLastPart (pySplit thinkClose message []))
  else message

/-- Lines 145-158: explicit tone wins; otherwise detect, passing
`request.context.dict()` (all fields, `None` values included) or `{}`. -/
def resolve_tone (request : EmailRequest) :
    String × Option ToneDetectionMetadata :=
  match request.tone with
  | some t => (t.value, Option.none)
  | Option.none =>
    let context_dict : PyDict :=
      match request.context with
      | some c => c.dict
      | Option.none => []
    let r := detect_tone request.customer_message (some context_dict)
    (r.1, some r.2)

/-- Lines 160-168: validate the tone string, falling back to
professional on an unrecognized value. -/
def ensure_valid_tone (tone : String) : ToneType × String :=
  match toneTypeOfValue tone with
  | some tt => (tt, tone)
  | Option.none => (ToneType.PROFESSIONAL, "professional")

/-- Lines 160-209 of `LangChainService.generate_email_response`: the part
after tone resolution.  The generated text and the elapsed wall-clock time
are inputs (the language-model call and the clock are external). -/
def generate_email_from_tone (settings : Settings) (request : EmailRequest)
    (tone : String) (tone_detection_metadata : Option ToneDetectionMetadata)
    (llmText : List Char) (elapsed_ms : ℚ) : EmailResponse :=
  let tt := ensure_valid_tone tone
  let tone_guidelines := TONE_GUIDELINES tt.1
  let context_str := format_context request.context
  let prompt := assemble_prompt context_str tone_guidelines
    request.customer_message (effectiveMaxLength request.max_length)
  let message := postprocess llmText
  { message := message
    status_code := 200
    execution_time_ms := elapsed_ms
    metadata :=
      { tone_used := tt.2
        context_length := prompt.length
        generation_settings :=
          [("temperature", settings.TEMPERATURE),
           ("max_tokens", settings.MAX_TOKENS),
           ("top_p", settings.TOP_P),
           ("top_k", settings.TOP_K)]
        tone_detection := tone_detection_metadata } }

/-- `LangChainService.generate_email_response` (success path). -/
def generate_email_response (settings : Settings) (request : EmailRequest)
    (llmText : List Char) (elapsed_ms : ℚ) : EmailResponse :=
  let r := resolve_tone request
  generate_email_from_tone settings request r.1 r.2 llmText elapsed_ms

/-! ## Service facade (src/app/services/ai_agent.py) -/

/-- The uncaught Python exceptions the facade can raise. -/
inductive PyError where
  | attributeError : PyError
deriving DecidableEq, Repr

/-- `AIAgent.generate_email_response`: line 53 evaluates
`request.tone.value` before delegating, which raises `AttributeError`
whenever `request.tone` is `None`; otherwise it delegates to the
LangChain service. -/
def agent_generate_email_response (settings : Settings)
    (request : EmailRequest) (llmText : List Char) (elapsed_ms : ℚ) :
    Except PyError EmailResponse :=
  match request.tone with
  | Option.none => Except.error PyError.attributeError
  | some _ =>
    Except.ok (generate_email_response settings request llmText elapsed_ms)

/-! ## Helper lemmas -/

/-- Closed form of `detect_tone` with the score lookups resolved. -/
theorem detect_tone_unfold (m : List Char) (ctx : Option PyDict) :
    detect_tone m ctx =
      (let u := check_patterns m urgency_patterns
       let c := check_patterns m complaint_patterns
       let f := check_patterns m formal_patterns
       let p := check_patterns m positive_patterns
       let scores : List (String × ℚ) :=
         [("urgency", u), ("complaint", c), ("formality", f), ("positivity", p)]
       let tc : String × ℚ :=
         if 3/10 < u ∨ contextPriority ctx = "critical" then ("direct", u)
         else if 3/10 < c then ("empathetic", c)
         else if 3/10 < f then ("formal", f)
         else if 3/10 < p then ("friendly", p)
         else ("professional", professionalConfidence scores)
       (tc.1, { detected_tone := tc.1, confidence := tc.2, factors := scores })) :=
  rfl

theorem check_patterns_nonneg (m : List Char) (pats : List (List Char → Bool)) :
    0 ≤ check_patterns m pats := by
  unfold check_patterns
  exact le_min (div_nonneg (Nat.cast_nonneg _) (Nat.cast_nonneg _)) one_pos.le

theorem check_patterns_le_one (m : List Char) (pats : List (List Char → Bool)) :
    check_patterns m pats ≤ 1 :=
  min_le_right _ _

/-- A three-pattern axis score is either 0 or strictly above the 0.3
threshold (a single match already gives 1/3). -/
theorem score3_cases (m : List Char) (pats : List (List Char → Bool))
    (h : pats.length = 3) :
    check_patterns m pats = 0 ∨ 3/10 < check_patterns m pats := by
  unfold check_patterns
  rw [h]
  rcases Nat.eq_zero_or_pos (pats.countP (fun p => p m)) with h0 | h1
  · left; rw [h0]; norm_num
  · right
    have h13 : (1 : ℚ)/3 ≤ (pats.countP (fun p => p m) : ℚ) / 3 := by
      apply div_le_div_of_nonneg_right _ (by norm_num)
      exact_mod_cast h1
    have : (3 : ℚ)/10 < min ((pats.countP (fun p => p m) : ℚ) / 3) 1 := by
      apply lt_min (lt_of_lt_of_le (by norm_num) h13) (by norm_num)
    exact this

/-- A four-pattern axis score is 0, exactly 1/4, or strictly above the
threshold. -/
theorem score4_cases (m : List Char) (pats : List (List Char → Bool))
    (h : pats.length = 4) :
    check_patterns m pats = 0 ∨ check_patterns m pats = 1/4 ∨
      3/10 < check_patterns m pats := by
  unfold check_patterns
  rw [h]
  have hle : pats.countP (fun p => p m) ≤ 4 := h ▸ List.countP_le_length _
  interval_cases hk : pats.countP (fun p => p m) <;> norm_num

/-- On a pattern list of at most three entries, any single matching
pattern already pushes the axis score above the 0.3 threshold. -/
theorem score_gt_of_match (m : List Char) (pats : List (List Char → Bool))
    (q : List Char → Bool) (hq : q ∈ pats) (hqm : q m = true)
    (hlen : pats.length ≤ 3) (hpos : pats.length ≠ 0) :
    3/10 < check_patterns m pats := by
  unfold check_patterns
  have h1 : 0 < pats.countP (fun p => p m) :=
    List.countP_pos_iff.mpr ⟨q, hq, hqm⟩
  have hl : (0 : ℚ) < (pats.length : ℚ) := by exact_mod_cast Nat.pos_of_ne_zero hpos
  have h13 : (1 : ℚ)/3 ≤ (pats.countP (fun p => p m) : ℚ) / (pats.length : ℚ) := by
    rw [div_le_div_iff₀ (by norm_num) hl]
    have hc : (1 : ℚ) ≤ (pats.countP (fun p => p m) : ℚ) := by exact_mod_cast h1
    have hlen3 : (pats.length : ℚ) ≤ 3 := by exact_mod_cast hlen
    nlinarith
  exact lt_min (lt_of_lt_of_le (by norm_num) h13) (by norm_num)

/-- The priority value as the spec sentence describes it: "the context's
priority field (lowercased, defaulting to normal)".  Written from the
claim's words, to be compared with `contextPriority` from the source. -/
def claimPriority (ctx : Option PyDict) : String :=
  match ctx with
  | Option.none => "normal"
  | some d =>
    match dictGet d "priority" with
    | .str s => strLower s
    | _ => "normal"

/-- On contexts that do not crash the Python lookup, the source's
priority handling and the claim's description agree on the only test the
decision rules perform. -/
theorem priority_critical_iff (ctx : Option PyDict) (h : priorityWF ctx = true) :
    (contextPriority ctx = "critical" ↔ claimPriority ctx = "critical") := by
  cases ctx with
  | none => exact Iff.rfl
  | some d =>
    cases hv : dictGet d "priority" with
    | noneV => simp [contextPriority, claimPriority, hv, PyVal.truthy]
    | int n =>
      simp only [priorityWF, hv, PyVal.isStrVal, Bool.or_false] at h
      have ht : (PyVal.int n).truthy = false := by simpa using h
      simp [contextPriority, claimPriority, hv, ht]
    | str s =>
      have hd : d ≠ [] := by
        intro he; subst he
        simp [dictGet] at hv
      by_cases hs : s = ""
      · subst hs
        simp [contextPriority, claimPriority, hv, PyVal.truthy, hd, strLower]
        decide
      · have hse : s.isEmpty = false := by
          cases hb : s.isEmpty with
          | false => rfl
          | true => exact absurd ((String.isEmpty_iff s).mp hb) hs
        simp [contextPriority, claimPriority, hv, PyVal.truthy, hse, hd]

theorem toneTypeOfValue_value (t : ToneType) : toneTypeOfValue t.value = some t := by
  cases t <;> rfl

/-- The tone string reported by the validation step is always the value
of the tone member it selects. -/
theorem ensure_valid_tone_value (s : String) :
    (ensure_valid_tone s).2 = (ensure_valid_tone s).1.value := by
  unfold ensure_valid_tone toneTypeOfValue
  split_ifs with h1 h2 h3 h4 h5 <;> simp_all [ToneType.value]

/-- The detector only ever returns one of the five labels. -/
theorem detect_tone_label_mem (m : List Char) (ctx : Option PyDict) :
    (detect_tone m ctx).1 ∈
      (["professional", "friendly", "formal", "empathetic", "direct"] :
        List String) := by
  rw [detect_tone_unfold]
  dsimp only
  split_ifs <;> simp

theorem professionalConfidence_nonneg (scores : List (String × ℚ))
    (h : ∀ x ∈ scores.map Prod.snd, 0 ≤ x) :
    0 ≤ professionalConfidence scores := by
  unfold professionalConfidence
  dsimp only
  split_ifs with hne
  · apply div_nonneg _ (Nat.cast_nonneg _)
    apply List.sum_nonneg
    intro x hx
    exact h x (List.mem_of_mem_filter hx)
  · norm_num

theorem professionalConfidence_le_one (scores : List (String × ℚ))
    (h : ∀ x ∈ scores.map Prod.snd, x ≤ 1) :
    professionalConfidence scores ≤ 1 := by
  unfold professionalConfidence
  dsimp only
  split_ifs with hne
  · set l := (scores.map Prod.snd).filter (fun s => decide (0 < s)) with hl
    have hlpos : 0 < (l.length : ℚ) := by
      exact_mod_cast List.length_pos.mpr hne
    rw [div_le_one hlpos]
    have := List.sum_le_card_nsmul l 1 (by
      intro x hx
      exact h x (List.mem_of_mem_filter hx))
    simpa using this
  · norm_num

/-! ### Lemmas about `pySplit` and `postprocess` -/

theorem pySplit_ne_nil_aux (sep : List Char) :
    ∀ (n : ℕ) (text acc : List Char), text.length ≤ n →
      pySplit sep text acc ≠ [] := by
  intro n
  induction n with
  | zero =>
    intro text acc h
    have htext : text = [] := List.length_eq_zero.mp (Nat.le_zero.mp h)
    subst htext
    rw [pySplit.eq_def]
    simp
  | succ n IH =>
    intro text acc h
    cases text with
    | nil => rw [pySplit.eq_def]; simp
    | cons c rest =>
      rw [pySplit.eq_def]
      dsimp only
      split_ifs with hc
      · simp
      · apply IH rest (c :: acc)
        simp only [List.length_cons] at h
        omega

theorem pySplit_ne_nil (sep text acc : List Char) : pySplit sep text acc ≠ [] :=
  pySplit_ne_nil_aux sep text.length text acc le_rfl

theorem pyLastPart_cons (x : List Char) (l : List (List Char)) (h : l ≠ []) :
    pyLastPart (x :: l) = pyLastPart l := by
  cases l with
  | nil => exact absurd rfl h
  | cons y l' =>
    unfold pyLastPart
    rw [List.getLastD_eq_getLast?, List.getLastD_eq_getLast?,
      List.getLast?_cons_cons]

/-- If the separator does not occur, `split` returns the single piece
that is everything scanned so far. -/
theorem pySplit_no_occ (sep : List Char) :
    ∀ (text acc : List Char), containsSub sep text = false →
      pySplit sep text acc = [acc.reverse ++ text] := by
  intro text
  induction text with
  | nil =>
    intro acc h
    rw [pySplit.eq_def]
    simp
  | cons c rest ih =>
    intro acc h
    unfold containsSub at h
    rw [Bool.or_eq_false_iff] at h
    rw [pySplit.eq_def]
    simp only [h.1, false_and, if_false, Bool.false_eq_true]
    rw [ih (c :: acc) h.2]
    simp

/-- `sep` has no non-trivial overlap with itself (no proper non-empty
prefix of it is also a suffix). -/
def noSelfOverlap (sep : List Char) : Prop :=
  ∀ a, a < sep.length → 0 < a → sep.take (sep.length - a) ≠ sep.drop a

theorem containsSub_of_decomp (sep A B : List Char) (hsep : sep ≠ []) :
    containsSub sep (A ++ sep ++ B) = true := by
  induction A with
  | nil =>
    cases sep with
    | nil => exact absurd rfl hsep
    | cons s0 s' =>
      have hp : (s0 :: s').isPrefixOf ((s0 :: s') ++ B) = true :=
        List.isPrefixOf_iff_prefix.mpr (List.prefix_append _ _)
      simp only [List.nil_append]
      rw [List.cons_append] at hp ⊢
      unfold containsSub
      rw [hp, Bool.true_or]
  | cons a A' ih =>
    simp only [List.cons_append] at ih ⊢
    unfold containsSub
    rw [ih, Bool.or_true]

/-- Core lemma for the post-processing claim: on input decomposing as
`A ++ sep ++ B` with no further separator occurrence in `B`, the last
piece produced by `split` is exactly `B`, provided `sep` cannot overlap
itself. -/
theorem pySplit_last (sep : List Char) (hsep : sep ≠ [])
    (hno : noSelfOverlap sep) :
    ∀ (n : ℕ) (text acc A B : List Char), text.length ≤ n →
      text = A ++ sep ++ B → containsSub sep B = false →
      pyLastPart (pySplit sep text acc) = B := by
  intro n
  induction n with
  | zero =>
    intro text acc A B hlen hdec hB
    have htext : text = [] := List.length_eq_zero.mp (Nat.le_zero.mp hlen)
    subst htext
    have hl := congrArg List.length hdec
    cases sep with
    | nil => exact absurd rfl hsep
    | cons s0 s' =>
      simp only [List.length_nil, List.length_append, List.length_cons] at hl
      omega
  | succ n IH =>
    intro text acc A B hlen hdec hB
    cases text with
    | nil =>
      have hl := congrArg List.length hdec
      cases sep with
      | nil => exact absurd rfl hsep
      | cons s0 s' =>
        simp only [List.length_nil, List.length_append, List.length_cons] at hl
        omega
    | cons c rest =>
      by_cases hpre : sep.isPrefixOf (c :: rest) = true
      · -- a separator occurrence starts right here
        rw [pySplit.eq_def]
        simp only [hpre, hsep, ne_eq, not_false_eq_true, and_self, if_true]
        rw [pyLastPart_cons _ _ (pySplit_ne_nil _ _ _)]
        obtain ⟨s0, s', hsep'⟩ : ∃ s0 s', sep = s0 :: s' :=
          match sep, hsep with
          | s0 :: s', _ => ⟨s0, s', rfl⟩
        have hdrop : rest.drop (sep.length - 1) = (c :: rest).drop sep.length := by
          subst hsep'
          simp [List.length_cons]
        cases A with
        | nil =>
          -- the decomposition's separator is this very occurrence
          have hdec' : c :: rest = sep ++ B := by simpa using hdec
          have hrB : (c :: rest).drop sep.length = B := by
            rw [hdec']
            exact List.drop_left sep B
          rw [hdrop, hrB, pySplit_no_occ sep B [] hB]
          simp [pyLastPart]
        | cons a A' =>
          by_cases hAs : sep.length ≤ (a :: A').length
          · -- the scanned occurrence is disjoint from the decomposition's
            have hrem : (c :: rest).drop sep.length =
                ((a :: A').drop sep.length) ++ sep ++ B := by
              rw [hdec, List.append_assoc, List.drop_append_eq_append_drop,
                Nat.sub_eq_zero_of_le hAs]
              simp [List.append_assoc]
            have hlen' : ((c :: rest).drop sep.length).length ≤ n := by
              rw [List.length_drop]
              have h1 : 0 < sep.length := by
                subst hsep'; simp
              have h2 : (c :: rest).length ≤ n + 1 := hlen
              omega
            rw [hdrop]
            exact IH _ [] _ B hlen' hrem hB
          · -- overlap of two separator occurrences: impossible
            exfalso
            push_neg at hAs
            obtain ⟨r, hr0⟩ := List.isPrefixOf_iff_prefix.mp hpre
            have hr : c :: rest = sep ++ r := hr0.symm
            set A := a :: A' with hA
            have hApos : 0 < A.length := by simp [hA]
            have e1 : sep ++ B = (sep ++ r).drop A.length := by
              rw [← hr, hdec, List.append_assoc]
              exact (List.drop_left A (sep ++ B)).symm
            have e2 : (sep ++ B).take (sep.length - A.length) =
                sep.take (sep.length - A.length) := by
              rw [List.take_append_eq_append_take]
              have : sep.length - A.length - sep.length = 0 := by omega
              rw [this]
              simp
            have e3 : (sep ++ r).drop A.length = sep.drop A.length ++ r := by
              rw [List.drop_append_eq_append_drop]
              have : A.length - sep.length = 0 := by omega
              rw [this]
              simp
            have e4 : ((sep.drop A.length) ++ r).take (sep.length - A.length) =
                sep.drop A.length := by
              apply List.take_left'
              rw [List.length_drop]
            have : sep.take (sep.length - A.length) = sep.drop A.length := by
              rw [← e2, e1, e3, e4]
            exact hno A.length hAs hApos this
      · -- no occurrence here: consume one character
        rw [pySplit.eq_def]
        simp only [hpre, false_and, if_false, Bool.false_eq_true]
        cases A with
        | nil =>
          exfalso
          apply hpre
          apply List.isPrefixOf_iff_prefix.mpr
          rw [hdec]
          simp only [List.nil_append, List.append_assoc]
          exact List.prefix_append _ _
        | cons a A' =>
          rw [List.cons_append, List.cons_append] at hdec
          injection hdec with h1 h2
          have hrest : rest.length ≤ n := by
            simp only [List.length_cons] at hlen
            omega
          exact IH rest (c :: acc) A' B hrest h2 hB

theorem thinkClose_noSelfOverlap : noSelfOverlap thinkClose := by
  unfold noSelfOverlap
  decide

theorem filter_pos_ne_nil {l : List ℚ} {x : ℚ} (hx : x ∈ l) (hpos : 0 < x) :
    l.filter (fun s => decide (0 < s)) ≠ [] := by
  apply List.ne_nil_of_mem (a := x)
  rw [List.mem_filter]
  exact ⟨hx, by simpa using hpos⟩

/-- Evaluation helper: an axis with no matching pattern scores 0. -/
theorem check_patterns_zero (m : List Char) (pats : List (List Char → Bool))
    (h : pats.countP (fun q => q m) = 0) : check_patterns m pats = 0 := by
  unfold check_patterns
  rw [h]
  norm_num

/-- Evaluation helper: an axis with `k` matching patterns scores
`k / |pats|` (the cap never bites since `k ≤ |pats|`). -/
theorem check_patterns_count (m : List Char) (pats : List (List Char → Bool))
    (k : ℕ) (h : pats.countP (fun q => q m) = k) (hpos : 0 < pats.length) :
    check_patterns m pats = (k : ℚ) / (pats.length : ℚ) := by
  unfold check_patterns
  rw [h]
  apply min_eq_left
  rw [div_le_one (by exact_mod_cast hpos)]
  have hk : k ≤ pats.length := h ▸ List.countP_le_length _
  exact_mod_cast hk

/-- Evaluation helper: full output of `detect_tone` when nothing matches
and the priority is not critical. -/
theorem detect_tone_all_zero (m : List Char) (ctx : Option PyDict)
    (h0 : urgency_patterns.countP (fun q => q m) = 0)
    (h1 : complaint_patterns.countP (fun q => q m) = 0)
    (h2 : formal_patterns.countP (fun q => q m) = 0)
    (h3 : positive_patterns.countP (fun q => q m) = 0)
    (hpr : contextPriority ctx ≠ "critical") :
    detect_tone m ctx =
      ("professional",
       { detected_tone := "professional", confidence := 1/2,
         factors := [("urgency", 0), ("complaint", 0),
                     ("formality", 0), ("positivity", 0)] }) := by
  have hu := check_patterns_zero m urgency_patterns h0
  have hc := check_patterns_zero m complaint_patterns h1
  have hf := check_patterns_zero m formal_patterns h2
  have hp := check_patterns_zero m positive_patterns h3
  rw [detect_tone_unfold]
  dsimp only
  rw [hu, hc, hf, hp]
  have hcond : ¬((3:ℚ)/10 < 0 ∨ contextPriority ctx = "critical") := by
    rintro (hx | hx)
    · norm_num at hx
    · exact hpr hx
  rw [if_neg hcond, if_neg (by norm_num), if_neg (by norm_num),
    if_neg (by norm_num)]
  have hconf : professionalConfidence
      [("urgency", (0:ℚ)), ("complaint", 0), ("formality", 0),
       ("positivity", 0)] = 1/2 := by
    norm_num [professionalConfidence]
  rw [hconf]

/-! ## Claim theorems -/

/-- C1: the spec says a request without an explicit tone has its tone
resolved by the classifier, whose result appears as `tone_detection` in
the metadata.  The service facade contradicts this (and the schema doc
"If not provided, will be auto-detected"): `AIAgent.generate_email_response`
evaluates `request.tone.value` before delegating, so every auto-detect
request dies with `AttributeError` and no response is produced.  This
theorem evaluates the facade at such a failing input. -/
theorem C1_facade_crashes_on_autodetect_request :
    agent_generate_email_response defaultSettings
      { customer_message := "Hello, my order has not arrived.".toList,
        context := Option.none, tone := Option.none, max_length := some 2048 }
      "Dear Customer, we are sorry.".toList 0 =
      Except.error PyError.attributeError := rfl

/-- C2: `detect_tone` applies the ordered first-match rules: direct on
urgency score above 0.3 or critical priority (confidence the urgency
score, possibly 0), else empathetic / formal / friendly on the complaint /
formality / positivity score above 0.3 (confidence that score), else
professional with confidence the mean of strictly positive scores, or 0.5
when all four scores are zero. -/
theorem C2_detect_tone_ordered_rules (m : List Char) (ctx : Option PyDict)
    (h : priorityWF ctx = true) (u c f p : ℚ)
    (hu : u = check_patterns m urgency_patterns)
    (hc : c = check_patterns m complaint_patterns)
    (hf : f = check_patterns m formal_patterns)
    (hp : p = check_patterns m positive_patterns) :
    ((3/10 < u ∨ claimPriority ctx = "critical") →
      (detect_tone m ctx).2.detected_tone = "direct" ∧
      (detect_tone m ctx).2.confidence = u) ∧
    (¬(3/10 < u ∨ claimPriority ctx = "critical") → 3/10 < c →
      (detect_tone m ctx).2.detected_tone = "empathetic" ∧
      (detect_tone m ctx).2.confidence = c) ∧
    (¬(3/10 < u ∨ claimPriority ctx = "critical") → ¬(3/10 < c) → 3/10 < f →
      (detect_tone m ctx).2.detected_tone = "formal" ∧
      (detect_tone m ctx).2.confidence = f) ∧
    (¬(3/10 < u ∨ claimPriority ctx = "critical") → ¬(3/10 < c) →
      ¬(3/10 < f) → 3/10 < p →
      (detect_tone m ctx).2.detected_tone = "friendly" ∧
      (detect_tone m ctx).2.confidence = p) ∧
    (¬(3/10 < u ∨ claimPriority ctx = "critical") → ¬(3/10 < c) →
      ¬(3/10 < f) → ¬(3/10 < p) →
      (detect_tone m ctx).2.detected_tone = "professional" ∧
      (¬(u = 0 ∧ c = 0 ∧ f = 0 ∧ p = 0) →
        (detect_tone m ctx).2.confidence =
          ([u, c, f, p].filter (fun s => 0 < s)).sum /
            (([u, c, f, p].filter (fun s => 0 < s)).length : ℚ)) ∧
      ((u = 0 ∧ c = 0 ∧ f = 0 ∧ p = 0) →
        (detect_tone m ctx).2.confidence = 1/2)) := by
  have hcrit := priority_critical_iff ctx h
  have hor : (3/10 < u ∨ claimPriority ctx = "critical") ↔
      (3/10 < u ∨ contextPriority ctx = "critical") :=
    or_congr Iff.rfl hcrit.symm
  rw [detect_tone_unfold]
  dsimp only
  rw [← hu, ← hc, ← hf, ← hp]
  refine ⟨?_, ?_, ?_, ?_, ?_⟩
  · intro h1
    rw [if_pos (hor.mp h1)]
    exact ⟨rfl, rfl⟩
  · intro h1 h2
    rw [if_neg (fun hx => h1 (hor.mpr hx)), if_pos h2]
    exact ⟨rfl, rfl⟩
  · intro h1 h2 h3
    rw [if_neg (fun hx => h1 (hor.mpr hx)), if_neg h2, if_pos h3]
    exact ⟨rfl, rfl⟩
  · intro h1 h2 h3 h4
    rw [if_neg (fun hx => h1 (hor.mpr hx)), if_neg h2, if_neg h3, if_pos h4]
    exact ⟨rfl, rfl⟩
  · intro h1 h2 h3 h4
    rw [if_neg (fun hx => h1 (hor.mpr hx)), if_neg h2, if_neg h3, if_neg h4]
    refine ⟨rfl, ?_, ?_⟩
    · intro hnz
      have hex : u ≠ 0 ∨ c ≠ 0 ∨ f ≠ 0 ∨ p ≠ 0 := by tauto
      have hne : ([u, c, f, p].filter (fun s => decide (0 < s))) ≠ [] := by
        rcases hex with hx | hx | hx | hx
        · exact filter_pos_ne_nil (by simp)
            (lt_of_le_of_ne (hu ▸ check_patterns_nonneg m _) (Ne.symm hx))
        · exact filter_pos_ne_nil (by simp)
            (lt_of_le_of_ne (hc ▸ check_patterns_nonneg m _) (Ne.symm hx))
        · exact filter_pos_ne_nil (by simp)
            (lt_of_le_of_ne (hf ▸ check_patterns_nonneg m _) (Ne.symm hx))
        · exact filter_pos_ne_nil (by simp)
            (lt_of_le_of_ne (hp ▸ check_patterns_nonneg m _) (Ne.symm hx))
      unfold professionalConfidence
      dsimp only
      simp only [List.map_cons, List.map_nil]
      rw [if_pos hne]
    · intro hz
      rw [hz.1, hz.2.1, hz.2.2.1, hz.2.2.2]
      norm_num [professionalConfidence]

/-- C2 witness: a critical-priority context with a neutral message takes
the direct rule with confidence equal to the (zero) urgency score. -/
theorem C2_witness :
    priorityWF (some [("priority", PyVal.str "Critical")]) = true ∧
    (detect_tone "hello".toList
      (some [("priority", PyVal.str "Critical")])).2.detected_tone = "direct" ∧
    (detect_tone "hello".toList
      (some [("priority", PyVal.str "Critical")])).2.confidence = 0 := by
  refine ⟨by decide, ?_, ?_⟩
  · exact ((C2_detect_tone_ordered_rules "hello".toList
      (some [("priority", PyVal.str "Critical")]) (by decide)
      _ _ _ _ rfl rfl rfl rfl).1 (Or.inr (by decide))).1
  · rw [((C2_detect_tone_ordered_rules "hello".toList
      (some [("priority", PyVal.str "Critical")]) (by decide)
      _ _ _ _ rfl rfl rfl rfl).1 (Or.inr (by decide))).2]
    exact check_patterns_zero _ _ (by decide)

/-- C3: each axis score reported in the detection factors equals the
number of matching patterns of that axis divided by the number of
patterns, capped at 1.0; the scores are independent, and a single message
can make two axes nonzero at once. -/
theorem C3_axis_scores :
    (∀ m : List Char,
      (detect_tone m Option.none).2.factors =
        [("urgency",
          min ((urgency_patterns.countP (fun q => q m) : ℚ) /
            (urgency_patterns.length : ℚ)) 1),
         ("complaint",
          min ((complaint_patterns.countP (fun q => q m) : ℚ) /
            (complaint_patterns.length : ℚ)) 1),
         ("formality",
          min ((formal_patterns.countP (fun q => q m) : ℚ) /
            (formal_patterns.length : ℚ)) 1),
         ("positivity",
          min ((positive_patterns.countP (fun q => q m) : ℚ) /
            (positive_patterns.length : ℚ)) 1)]) ∧
    (0 < getScore (detect_tone "urgent problem".toList Option.none).2.factors
        "urgency" ∧
     0 < getScore (detect_tone "urgent problem".toList Option.none).2.factors
        "complaint") := by
  constructor
  · intro m
    rfl
  · constructor
    · have he : getScore (detect_tone "urgent problem".toList
          Option.none).2.factors "urgency" =
          check_patterns "urgent problem".toList urgency_patterns := rfl
      rw [he, check_patterns_count "urgent problem".toList urgency_patterns 1
        (by decide) (by decide)]
      norm_num
      decide
    · have he : getScore (detect_tone "urgent problem".toList
          Option.none).2.factors "complaint" =
          check_patterns "urgent problem".toList complaint_patterns := rfl
      rw [he, check_patterns_count "urgent problem".toList complaint_patterns 1
        (by decide) (by decide)]
      norm_num
      decide

/-- C4 counterexample: the claim promises tone "direct" for every message
containing two or more exclamation marks, but the pattern `!\x7b2,\x7d`
requires a consecutive run: "a! b!" has two exclamation marks yet is
classified "professional". -/
theorem C4_counterexample :
    "a! b!".toList.count '!' = 2 ∧
    (detect_tone "a! b!".toList Option.none).1 ≠ "direct" := by
  refine ⟨by decide, ?_⟩
  rw [detect_tone_all_zero "a! b!".toList Option.none (by decide) (by decide)
    (by decide) (by decide) (by decide)]
  decide

/-- C4 (amended): for every message containing two or more CONSECUTIVE
exclamation marks, or containing one of the case-insensitive urgency
keywords (urgent, emergency, asap, right away, immediately, right now),
`detect_tone` returns tone "direct", for every context whose priority
lookup does not crash; complaint triggers in the same message cannot
override it since urgency is checked first. -/
theorem C4_amended_direct (m : List Char) (ctx : Option PyDict)
    (h : priorityWF ctx = true)
    (htrig : containsSub ['!', '!'] m = true ∨
      ∃ kw ∈ urgencyKeywords, containsSub kw.toList (pyLower m) = true) :
    (detect_tone m ctx).1 = "direct" := by
  have hu : 3/10 < check_patterns m urgency_patterns := by
    rcases htrig with h1 | h2
    · refine score_gt_of_match m urgency_patterns
        (fun msg => containsSub ['!', '!'] msg) ?_ h1 (by decide) (by decide)
      unfold urgency_patterns
      exact List.mem_cons_of_mem _ (List.mem_cons_of_mem _
        (List.mem_cons_self _ _))
    · refine score_gt_of_match m urgency_patterns
        (ciAny urgencyKeywords) ?_ ?_ (by decide) (by decide)
      · unfold urgency_patterns
        exact List.mem_cons_of_mem _ (List.mem_cons_self _ _)
      · unfold ciAny
        exact List.any_eq_true.mpr h2
  rw [detect_tone_unfold]
  dsimp only
  rw [if_pos (Or.inl hu)]

/-- C4 witness: "please reply asap" contains the urgency keyword "asap"
and is classified "direct". -/
theorem C4_witness :
    priorityWF Option.none = true ∧
    (containsSub ['!', '!'] "please reply asap".toList = true ∨
      ∃ kw ∈ urgencyKeywords,
        containsSub kw.toList (pyLower "please reply asap".toList) = true) ∧
    (detect_tone "please reply asap".toList Option.none).1 = "direct" :=
  ⟨rfl, by decide,
    C4_amended_direct "please reply asap".toList Option.none rfl (by decide)⟩

/-- C5: every detection returns one of the five labels, a confidence in
[0, 1], and a factors map whose keys are exactly the four axes. -/
theorem C5_detect_tone_invariants (m : List Char) (ctx : Option PyDict)
    (h : priorityWF ctx = true) :
    (detect_tone m ctx).1 ∈
      (["professional", "friendly", "formal", "empathetic", "direct"] :
        List String) ∧
    0 ≤ (detect_tone m ctx).2.confidence ∧
    (detect_tone m ctx).2.confidence ≤ 1 ∧
    (detect_tone m ctx).2.factors.map Prod.fst =
      ["urgency", "complaint", "formality", "positivity"] := by
  refine ⟨detect_tone_label_mem m ctx, ?_, ?_, rfl⟩
  · rw [detect_tone_unfold]
    dsimp only
    split_ifs
    · exact check_patterns_nonneg m _
    · exact check_patterns_nonneg m _
    · exact check_patterns_nonneg m _
    · exact check_patterns_nonneg m _
    · apply professionalConfidence_nonneg
      intro x hx
      simp only [List.map_cons, List.map_nil, List.mem_cons,
        List.not_mem_nil, or_false] at hx
      rcases hx with rfl | rfl | rfl | rfl <;> exact check_patterns_nonneg m _
  · rw [detect_tone_unfold]
    dsimp only
    split_ifs
    · exact check_patterns_le_one m _
    · exact check_patterns_le_one m _
    · exact check_patterns_le_one m _
    · exact check_patterns_le_one m _
    · apply professionalConfidence_le_one
      intro x hx
      simp only [List.map_cons, List.map_nil, List.mem_cons,
        List.not_mem_nil, or_false] at hx
      rcases hx with rfl | rfl | rfl | rfl <;> exact check_patterns_le_one m _

/-- C5 witness: the invariants at a concrete call. -/
theorem C5_witness :
    priorityWF Option.none = true ∧
    ((detect_tone "Thank you so much, I love this feature!".toList
        Option.none).1 ∈
      (["professional", "friendly", "formal", "empathetic", "direct"] :
        List String) ∧
     0 ≤ (detect_tone "Thank you so much, I love this feature!".toList
        Option.none).2.confidence ∧
     (detect_tone "Thank you so much, I love this feature!".toList
        Option.none).2.confidence ≤ 1 ∧
     (detect_tone "Thank you so much, I love this feature!".toList
        Option.none).2.factors.map Prod.fst =
      ["urgency", "complaint", "formality", "positivity"]) :=
  ⟨rfl, C5_detect_tone_invariants
    "Thank you so much, I love this feature!".toList Option.none rfl⟩

/-- C6: an explicitly supplied tone is reported unchanged as `tone_used`
and suppresses tone detection: `tone_detection` is `None` in the response
metadata, whatever the message says. -/
theorem C6_explicit_tone_overrides (settings : Settings)
    (request : EmailRequest) (t : ToneType) (llmText : List Char)
    (elapsed_ms : ℚ) (h : request.tone = some t) :
    (generate_email_response settings request llmText
        elapsed_ms).metadata.tone_used = t.value ∧
    (generate_email_response settings request llmText
        elapsed_ms).metadata.tone_detection = Option.none := by
  unfold generate_email_response resolve_tone
  rw [h]
  dsimp only
  unfold generate_email_from_tone ensure_valid_tone
  rw [toneTypeOfValue_value]
  exact ⟨rfl, rfl⟩

/-- C6 witness: explicit tone "formal" on a message that would otherwise
auto-detect; metadata reports "formal" and no detection result. -/
theorem C6_witness :
    ({ customer_message := "URGENT!! This is unacceptable".toList,
       context := Option.none, tone := some ToneType.FORMAL,
       max_length := Option.none } : EmailRequest).tone =
      some ToneType.FORMAL ∧
    (generate_email_response defaultSettings
      { customer_message := "URGENT!! This is unacceptable".toList,
        context := Option.none, tone := some ToneType.FORMAL,
        max_length := Option.none }
      "Dear Customer, certainly.".toList 7).metadata.tone_used = "formal" ∧
    (generate_email_response defaultSettings
      { customer_message := "URGENT!! This is unacceptable".toList,
        context := Option.none, tone := some ToneType.FORMAL,
        max_length := Option.none }
      "Dear Customer, certainly.".toList 7).metadata.tone_detection =
      Option.none :=
  ⟨rfl,
   (C6_explicit_tone_overrides defaultSettings _ ToneType.FORMAL _ 7 rfl).1,
   (C6_explicit_tone_overrides defaultSettings _ ToneType.FORMAL _ 7 rfl).2⟩

set_option maxRecDepth 8192 in
/-- C7: the `context_length` metadata field is the character length of
the fully assembled prompt — fixed template segments plus formatted
context block, tone guideline, raw customer message and the rendered
max-length — and therefore strictly exceeds the raw message length. -/
theorem C7_context_length_is_prompt_length (settings : Settings)
    (request : EmailRequest) (llmText : List Char) (elapsed_ms : ℚ) :
    (∃ tt : ToneType,
      (generate_email_response settings request llmText
          elapsed_ms).metadata.tone_used = tt.value ∧
      (generate_email_response settings request llmText
          elapsed_ms).metadata.context_length =
        email_template_seg1.toList.length +
        (format_context request.context).length +
        email_template_seg2.toList.length +
        (TONE_GUIDELINES tt).toList.length +
        email_template_seg3.toList.length +
        request.customer_message.length +
        email_template_seg4.toList.length +
        (toString (effectiveMaxLength request.max_length)).toList.length +
        email_template_seg5.toList.length) ∧
    request.customer_message.length <
      (generate_email_response settings request llmText
          elapsed_ms).metadata.context_length := by
  have hval := ensure_valid_tone_value (resolve_tone request).1
  have hused : (generate_email_response settings request llmText
      elapsed_ms).metadata.tone_used =
      (ensure_valid_tone (resolve_tone request).1).1.value := by
    unfold generate_email_response generate_email_from_tone
    exact hval
  have hlen : (generate_email_response settings request llmText
      elapsed_ms).metadata.context_length =
      email_template_seg1.toList.length +
      (format_context request.context).length +
      email_template_seg2.toList.length +
      (TONE_GUIDELINES
        (ensure_valid_tone (resolve_tone request).1).1).toList.length +
      email_template_seg3.toList.length +
      request.customer_message.length +
      email_template_seg4.toList.length +
      (toString (effectiveMaxLength request.max_length)).toList.length +
      email_template_seg5.toList.length := by
    unfold generate_email_response generate_email_from_tone assemble_prompt
    dsimp only
    simp only [List.length_append]
  refine ⟨⟨(ensure_valid_tone (resolve_tone request).1).1, hused, hlen⟩, ?_⟩
  rw [hlen]
  have h1 : 0 < email_template_seg1.toList.length := by decide
  omega

/-- C8: a tone string that is not one of the five recognized values does
not make generation fail: the orchestrator behaves exactly as if
"professional" had been supplied, reports "professional" as `tone_used`,
and still returns a status-200 response. -/
theorem C8_invalid_tone_falls_back (settings : Settings)
    (request : EmailRequest) (tone : String)
    (tdm : Option ToneDetectionMetadata) (llmText : List Char)
    (elapsed_ms : ℚ) (h : toneTypeOfValue tone = Option.none) :
    generate_email_from_tone settings request tone tdm llmText elapsed_ms =
      generate_email_from_tone settings request "professional" tdm llmText
        elapsed_ms ∧
    (generate_email_from_tone settings request tone tdm llmText
        elapsed_ms).metadata.tone_used = "professional" ∧
    (generate_email_from_tone settings request tone tdm llmText
        elapsed_ms).status_code = 200 := by
  unfold generate_email_from_tone ensure_valid_tone
  rw [h]
  exact ⟨rfl, rfl, rfl⟩

/-- C8 witness: the unrecognized tone "shouty" produces a professional
response. -/
theorem C8_witness :
    toneTypeOfValue "shouty" = Option.none ∧
    (generate_email_from_tone defaultSettings
      { customer_message := "Hi".toList, context := Option.none,
        tone := Option.none, max_length := Option.none }
      "shouty" Option.none "Dear Customer, hello.".toList
      2).metadata.tone_used = "professional" :=
  ⟨rfl,
   (C8_invalid_tone_falls_back defaultSettings
     { customer_message := "Hi".toList, context := Option.none,
       tone := Option.none, max_length := Option.none }
     "shouty" Option.none "Dear Customer, hello.".toList 2 rfl).2.1⟩

/-- C9: post-processing strips leading/trailing whitespace; when the
stripped text contains the `<think>` start marker and a matching
`</think>` end marker, everything up to and including the (last) end
marker is discarded and only the trimmed remainder is kept. -/
theorem C9_postprocess_strips_thinking (text : List Char) :
    (containsSub thinkOpen (pyStrip text) = false →
      postprocess text = pyStrip text) ∧
    (∀ pre mid post : List Char,
      pyStrip text = pre ++ thinkOpen ++ mid ++ thinkClose ++ post →
      containsSub thinkClose post = false →
      postprocess text = pyStrip post) := by
  constructor
  · intro h
    unfold postprocess
    simp only [h, Bool.false_eq_true, if_false]
  · intro pre mid post hdec hpost
    unfold postprocess
    have hopen : containsSub thinkOpen (pyStrip text) = true := by
      rw [hdec]
      have h := containsSub_of_decomp thinkOpen pre
        (mid ++ thinkClose ++ post) (by decide)
      simpa [List.append_assoc] using h
    simp only [hopen, if_true]
    have hlast : pyLastPart (pySplit thinkClose (pyStrip text) []) = post := by
      apply pySplit_last thinkClose (by decide) thinkClose_noSelfOverlap
        (pyStrip text).length (pyStrip text) []
        (pre ++ thinkOpen ++ mid) post le_rfl _ hpost
      rw [hdec]
    rw [hlast]

/-- C9 witness: a response with an exposed thinking segment is reduced to
the trimmed text after the end marker. -/
theorem C9_witness :
    pyStrip " <think>plan</think> Dear Alice, done. ".toList =
      ([] : List Char) ++ thinkOpen ++ "plan".toList ++ thinkClose ++
        " Dear Alice, done.".toList ∧
    containsSub thinkClose " Dear Alice, done.".toList = false ∧
    postprocess " <think>plan</think> Dear Alice, done. ".toList =
      pyStrip " Dear Alice, done.".toList :=
  ⟨by decide, by decide,
   (C9_postprocess_strips_thinking
     " <think>plan</think> Dear Alice, done. ".toList).2
     [] "plan".toList " Dear Alice, done.".toList (by decide) (by decide)⟩

/-- C10 (implicit): whenever the detector answers "professional", the
confidence is exactly 1/4 or exactly 1/2: in that branch urgency and
formality are forced to 0 (their three-pattern sets jump straight past
the threshold), any positive complaint or positivity score is exactly
1/4, so the mean of strictly positive scores is 1/4 — and 1/2 is the
all-zero fallback. -/
theorem C10_professional_confidence (m : List Char) (ctx : Option PyDict)
    (h : priorityWF ctx = true)
    (hprof : (detect_tone m ctx).1 = "professional") :
    (detect_tone m ctx).2.confidence = 1/4 ∨
    (detect_tone m ctx).2.confidence = 1/2 := by
  rw [detect_tone_unfold] at hprof ⊢
  dsimp only at hprof ⊢
  split_ifs at hprof ⊢ with h1 h2 h3 h4
  · simp at hprof
  · simp at hprof
  · simp at hprof
  · simp at hprof
  · -- professional branch: urgency and formality are 0, the others 0 or 1/4
    have h1u : ¬ 3/10 < check_patterns m urgency_patterns :=
      fun hx => h1 (Or.inl hx)
    have hu0 : check_patterns m urgency_patterns = 0 := by
      rcases score3_cases m urgency_patterns rfl with h0 | hgt
      · exact h0
      · exact absurd hgt h1u
    have hf0 : check_patterns m formal_patterns = 0 := by
      rcases score3_cases m formal_patterns rfl with h0 | hgt
      · exact h0
      · exact absurd hgt h3
    have hcc : check_patterns m complaint_patterns = 0 ∨
        check_patterns m complaint_patterns = 1/4 := by
      rcases score4_cases m complaint_patterns rfl with h0 | h14 | hgt
      · exact Or.inl h0
      · exact Or.inr h14
      · exact absurd hgt h2
    have hpp : check_patterns m positive_patterns = 0 ∨
        check_patterns m positive_patterns = 1/4 := by
      rcases score4_cases m positive_patterns rfl with h0 | h14 | hgt
      · exact Or.inl h0
      · exact Or.inr h14
      · exact absurd hgt h4
    rw [hu0, hf0]
    rcases hcc with hc | hc <;> rcases hpp with hp | hp
    · rw [hc, hp]; right; norm_num [professionalConfidence]
    · rw [hc, hp]; left; norm_num [professionalConfidence]
    · rw [hc, hp]; left; norm_num [professionalConfidence]
    · rw [hc, hp]; left
      norm_num [professionalConfidence]
      simp

/-- C10 witness: the all-zero message "hello" yields professional tone
with confidence 1/2. -/
theorem C10_witness :
    priorityWF Option.none = true ∧
    (detect_tone "hello".toList Option.none).1 = "professional" ∧
    ((detect_tone "hello".toList Option.none).2.confidence = 1/4 ∨
     (detect_tone "hello".toList Option.none).2.confidence = 1/2) := by
  have hp : (detect_tone "hello".toList Option.none).1 = "professional" := by
    rw [detect_tone_all_zero "hello".toList Option.none (by decide) (by decide)
      (by decide) (by decide) (by decide)]
  exact ⟨rfl, hp, C10_professional_confidence "hello".toList Option.none rfl hp⟩

end CommAgent
